import Mathlib

/-!
A shallow embedding of `addok/debug.py`: the interactive debug console for
the addok geocoding index, comprising the command registry, the dispatcher
(`Cli.handle_command`), the introspection operations (`do_*` methods) and
the shell read loop (`Cli.__call__`).  External collaborators (tokenizer,
Redis client, search engine, geohash decoder, n-gram comparison) are
modelled as components of an explicit environment record, following the
boundary contracts they are consumed with.  Printing is modelled as a list
of structured output events; raised Python exceptions are modelled with
`Except` over an exception-kind type.

Python string primitives are modelled over `List Char` (all the strings
involved are treated as sequences of characters, which matches Python `str`
semantics for the ASCII data the console manipulates).
-/

namespace Addok

/-- Decidable equality for `Except`, needed to evaluate the operations on
concrete inputs. -/
instance {ε α : Type _} [DecidableEq ε] [DecidableEq α] : DecidableEq (Except ε α)
  | .ok a, .ok b =>
    if h : a = b then isTrue (by rw [h]) else isFalse (fun hc => h (Except.ok.inj hc))
  | .error a, .error b =>
    if h : a = b then isTrue (by rw [h]) else isFalse (fun hc => h (Except.error.inj hc))
  | .ok _, .error _ => isFalse (fun hc => Except.noConfusion hc)
  | .error _, .ok _ => isFalse (fun hc => Except.noConfusion hc)

/-- Python exception classes relevant to `debug.py`, abstracted to their kind. -/
inductive ExcKind where
  | valueError
  | indexError
  | keyError
  | typeError
  | attributeError
  | keyboardInterrupt
  | eofError
  | otherError
deriving DecidableEq, Repr

/-- Embedding of Python `s.startswith(pre)`: prefix test on the character list. -/
def pyStartsWith (s pre : String) : Bool :=
  pre.toList.isPrefixOf s.toList

/-- Embedding of Python `s.lower()`. -/
def pyLower (s : String) : String :=
  String.mk (s.toList.map Char.toLower)

/-- Embedding of Python `s.upper()`. -/
def pyUpper (s : String) : String :=
  String.mk (s.toList.map Char.toUpper)

/-- Embedding of Python `s.strip()` on the character list: drop whitespace
from both ends. -/
def charTrim (cs : List Char) : List Char :=
  ((cs.dropWhile Char.isWhitespace).reverse.dropWhile Char.isWhitespace).reverse

/-- Split a character list at every character satisfying `p`, keeping empty
pieces (the behaviour of splitting on each separator occurrence). -/
def splitChars (p : Char → Bool) : List Char → List Char → List (List Char)
  | [], acc => [acc.reverse]
  | c :: cs, acc =>
    if p c then acc.reverse :: splitChars p cs [] else splitChars p cs (c :: acc)

/-- Embedding of Python `s.split()` with no separator: whitespace-separated
words, empty pieces dropped. -/
def pyWsSplit (s : String) : List String :=
  ((splitChars Char.isWhitespace s.toList []).filter (fun w => !w.isEmpty)).map
    String.mk

/-- Embedding of the truthiness of `command_line.count(' ')`: the line
contains at least one space character. -/
def pyHasSpace (s : String) : Bool :=
  decide (' ' ∈ s.toList)

/-- Embedding of Python `s.split(' ', 1)` in the branch where the string
contains a space: the part before the first space and the part after it. -/
def splitFirstSpace (s : String) : String × String :=
  let cs := s.toList
  (String.mk (cs.takeWhile (fun c => c ≠ ' ')),
   String.mk ((cs.dropWhile (fun c => c ≠ ' ')).drop 1))

/-- Split a character list on every non-overlapping occurrence of the
separator `sep`, scanning left to right.  The `fuel` argument only bounds
the recursion (each step consumes at least one character, so `fuel`
initialised to the length of the input is never exhausted); it makes the
recursion structural. -/
def splitOnAux (sep : List Char) : Nat → List Char → List Char → List (List Char)
  | _, [], acc => [acc.reverse]
  | 0, cs, acc => [acc.reverse ++ cs]
  | fuel + 1, c :: cs, acc =>
    if sep.isPrefixOf (c :: cs) && !sep.isEmpty then
      acc.reverse :: splitOnAux sep fuel ((c :: cs).drop sep.length) []
    else
      splitOnAux sep fuel cs (c :: acc)

/-- Embedding of Python `s.split(sep)` for a non-empty separator string. -/
def pySplitOn (s sep : String) : List String :=
  (splitOnAux sep.toList s.toList.length s.toList []).map String.mk

/-- Embedding of Python substring membership `sep in s` (equivalently:
splitting on `sep` yields at least two parts). -/
def pyContains (s sep : String) : Bool :=
  decide (2 ≤ (pySplitOn s sep).length)

/-- Numeric value of a list of decimal digit characters. -/
def digitsVal (cs : List Char) : Nat :=
  cs.foldl (fun a c => a * 10 + (c.toNat - 48)) 0

/-- A CPython float value as the console observes it: a finite value kept
as an exact rational, a signed infinity, or a NaN. -/
inductive PyF where
  | fin (q : ℚ)
  | inf (neg : Bool)
  | nan
deriving DecidableEq, Repr

/-- Negation of a CPython float value (the leading `-` of a literal). -/
def PyF.neg : PyF → PyF
  | .fin q => .fin (-q)
  | .inf b => .inf (!b)
  | .nan => .nan

/-- Tail of a digit group with PEP 515 underscores: after one digit, more
digits with single underscores strictly between digits (`_0` continues a
group, a trailing or doubled underscore does not). -/
def digitGroupTail : List Char → Bool
  | [] => true
  | '_' :: c :: cs => c.isDigit && digitGroupTail cs
  | c :: cs => c.isDigit && digitGroupTail cs

/-- Non-empty ASCII digit group with PEP 515 underscores: `10`, `1_0`; not
`_1`, `1_`, `1__0`. -/
def isDigitGroup : List Char → Bool
  | [] => false
  | c :: cs => c.isDigit && digitGroupTail cs

/-- Digits of a group with the underscores removed. -/
def groupDigits (cs : List Char) : List Char :=
  cs.filter (fun c => c ≠ '_')

/-- Parse a CPython float mantissa `[digits][.digits]` (at least one digit,
underscored groups allowed, underscores not adjacent to the dot) into its
exact rational value. -/
def parseMantissa (cs : List Char) : Option ℚ :=
  let ip := cs.takeWhile (fun c => c ≠ '.')
  let rest := cs.dropWhile (fun c => c ≠ '.')
  match rest with
  | [] => if isDigitGroup ip then some (digitsVal (groupDigits ip) : ℚ) else none
  | '.' :: fp =>
    if (ip.isEmpty || isDigitGroup ip) && (fp.isEmpty || isDigitGroup fp) &&
        !(ip.isEmpty && fp.isEmpty) then
      if fp.isEmpty then some (digitsVal (groupDigits ip) : ℚ)
      else
        some ((digitsVal (groupDigits ip) : ℚ) +
          (digitsVal (groupDigits fp) : ℚ) / ((10 : ℚ) ^ (groupDigits fp).length))
    else none
  | _ => none

/-- Parse the `[sign]digits` part after the `e` of an exponent. -/
def parseExp (cs : List Char) : Option ℤ :=
  match cs with
  | '+' :: ds =>
    if isDigitGroup ds then some (digitsVal (groupDigits ds) : ℤ) else none
  | '-' :: ds =>
    if isDigitGroup ds then some (-(digitsVal (groupDigits ds) : ℤ)) else none
  | ds => if isDigitGroup ds then some (digitsVal (groupDigits ds) : ℤ) else none

/-- Parse an unsigned CPython float body: `inf`, `infinity` or `nan`
(case-insensitive), or a decimal mantissa with an optional `e`/`E`
exponent. -/
def pyFloatBody (cs : List Char) : Option PyF :=
  let low := cs.map Char.toLower
  if low = ['i', 'n', 'f'] || low = ['i', 'n', 'f', 'i', 'n', 'i', 't', 'y'] then
    some (.inf false)
  else if low = ['n', 'a', 'n'] then some .nan
  else
    let mant := cs.takeWhile (fun c => c ≠ 'e' && c ≠ 'E')
    let rest := cs.dropWhile (fun c => c ≠ 'e' && c ≠ 'E')
    match rest with
    | [] => (parseMantissa mant).map .fin
    | _ :: es =>
      match parseMantissa mant, parseExp es with
      | some m, some e => some (.fin (m * (10 : ℚ) ^ e))
      | _, _ => none

/-- Embedding of CPython `float(s)`: strip surrounding whitespace, optional
sign, then `inf`/`infinity`/`nan` (case-insensitive) or a decimal literal
with optional fraction, PEP 515 underscores and optional exponent.  Digits
are ASCII, and finite values are kept as exact rationals (the rounding of
decimal literals to binary doubles, and the overflow of huge exponents to
infinity, are abstracted away, like every other number in this model).
`none` models the inputs on which `float` raises `ValueError`. -/
def pyFloat (s : String) : Option PyF :=
  match charTrim s.toList with
  | '-' :: cs => (pyFloatBody cs).map PyF.neg
  | '+' :: cs => pyFloatBody cs
  | cs => pyFloatBody cs

/-- Names of the sixteen `do_` methods of `Cli`, in the alphabetical order
`inspect.getmembers` enumerates them. -/
def doNames : List String :=
  ["autocomplete", "bestscore", "dbinfo", "dbkey", "distance", "explain",
   "frequency", "geodistance", "geohashtogeojson", "get", "help", "index",
   "pair", "reverse", "search", "tokenize"]

/-- Embedding of the keys of `Cli.COMMANDS`: each `do_` suffix upper-cased
(`Cli._inspect_commands`). -/
def COMMANDS : List String :=
  doNames.map pyUpper

/-- Result of the dispatch decision in `Cli.handle_command`: no-op on empty
input, invocation of a `do_` method with an optional argument, or the
`No command` error message. -/
inductive Dispatch where
  | noop
  | invoke (action : String) (arg : Option String)
  | noCommand (line : String)
deriving DecidableEq, Repr

/-- Embedding of `command_line.startswith(tuple(self.COMMANDS.keys()))`. -/
def startsWithAnyCommand (line : String) : Bool :=
  COMMANDS.any (fun k => pyStartsWith line k)

/-- Embedding of `hasattr(self, 'do_' + action.lower())`: the class has
exactly the sixteen `do_` attributes. -/
def hasDo (action : String) : Bool :=
  decide (pyLower action ∈ doNames)

/-- Embedding of the dispatch logic of `Cli.handle_command`. -/
def handle_command (line : String) : Dispatch :=
  if line = "" then .noop
  else
    let p :=
      if !startsWithAnyCommand line then ("SEARCH", some line)
      else if pyHasSpace line then
        ((splitFirstSpace line).1, some (splitFirstSpace line).2)
      else (line, none)
    if hasDo p.1 then .invoke p.1 p.2 else .noCommand line

/-- Modelled from the spec: `document_key` of `addok.core` is not under
`src/`; document keys are built by a fixed formatting rule, a namespace
prefix distinct from the token namespace followed by the id. -/
def document_key (id : String) : String :=
  "d|" ++ id

/-- Modelled from the spec: `token_key` of `addok.core` (token namespace
prefix followed by the normalized token). -/
def token_key (t : String) : String :=
  "w|" ++ t

/-- Modelled from the spec: `pair_key` of `addok.core` (pair-set namespace
prefix followed by the token). -/
def pair_key (t : String) : String :=
  "p|" ++ t

/-- Geohash bounding box `{n, s, e, w}` as returned by the external
`geohash.bbox`. -/
structure Bbox where
  n : ℚ
  s : ℚ
  e : ℚ
  w : ℚ
deriving DecidableEq, Repr

/-- The external collaborators `debug.py` consumes, as one read-only record:
tokenizer (`preprocess_query`), Redis client (`DB`), search engine
(`search` / `reverse`), `SearchResult` construction, n-gram comparison,
geodesy helpers and geohash decoding.  Sorted sets are stored as raw
member/score lists; range queries order them by descending score. -/
structure Env where
  tokenize : String → List String
  zset : String → List (String × ℚ)
  hgetall : String → List (String × String)
  smembers : String → List String
  tokenFrequency : String → ℚ
  compareNgrams : String → String → ℚ
  autocompleteKeys : String → List String
  searchFn : String → Bool → Option (PyF × PyF) → List (String × ℚ)
  reverseFn : PyF → PyF → List (String × ℚ × ℚ)
  dbtype : String → String
  info : List (String × String)
  infoDb0Keys : Option String
  bbox : String → Option Bbox
  resultLatLon : String → Option (String × String)
  haversine : PyF × PyF → PyF × PyF → ℚ
  kmToScore : ℚ → ℚ

/-- Embedding of Redis `ZREVRANGE key start stop WITHSCORES`: the sorted
set's members ordered by descending score, positions `start` through `stop`
inclusive. -/
def zrevrange (env : Env) (key : String) (start stop : Nat) : List (String × ℚ) :=
  (((env.zset key).insertionSort (fun a b => b.2 ≤ a.2)).drop start).take
    (stop + 1 - start)

/-- Embedding of Redis `ZSCORE key member`. -/
def zscore (env : Env) (key member : String) : Option ℚ :=
  ((env.zset key).lookup member)

/-- Embedding of Redis `ZREVRANK key member`: 0-based position of the member
in descending-score order, absent when the member is not in the set. -/
def zrevrank (env : Env) (key member : String) : Option Nat :=
  (((env.zset key).insertionSort (fun a b => b.2 ≤ a.2)).map Prod.fst).indexOf? member

/-- Value shapes `Cli.do_dbkey` can display. -/
inductive DbVal where
  | set (members : List String)
  | hash (fields : List (String × String))
  | unsupported
deriving DecidableEq, Repr

/-- One print statement of the console, as a structured event. -/
inductive Ev where
  | result (id : String) (score : ℚ)
  | timing
  | tokens (ts : List String)
  | count (n : Nat)
  | field (k v : String)
  | housenumbers (hs : List (String × String))
  | freq (q : ℚ)
  | idx (token : String) (score : Option ℚ) (rank : Option Nat)
  | revResult (id : String) (score : ℚ) (dist : ℚ)
  | noCommandMsg (line : String)
  | distanceMalformed
  | ngram (a b : String) (score : ℚ)
  | helpLine (name : String)
  | infoLine (k v : String)
  | dbkeyOut (t : String) (payload : DbVal)
  | geodistOut (km : ℚ) (score : ℚ)
  | geodistMalformed
  | geojson (coords : List (ℚ × ℚ))
  | farewell
  | separator
deriving DecidableEq, Repr

/-- Embedding of the `CENTER` clause handling at the top of `Cli._search`:
the forwarded query text with the optional parsed center, or the uncaught
`ValueError` raised by tuple unpacking or by `float`. -/
def searchParse (query : String) : Except ExcKind (String × Option (PyF × PyF)) :=
  if pyContains query "CENTER" then
    match pySplitOn query "CENTER" with
    | [q, center] =>
      match pyWsSplit center with
      | [a, b] =>
        match pyFloat a, pyFloat b with
        | some lat, some lon => .ok (q, some (lat, lon))
        | _, _ => .error .valueError
      | _ => .error .valueError
    | _ => .error .valueError
  else .ok (query, none)

/-- Embedding of `Cli._search`: parse the center clause, run the engine,
print one line per result and the timing line. -/
def searchRun (env : Env) (query : String) (verbose : Bool) :
    Except ExcKind (List Ev) :=
  match searchParse query with
  | .error e => .error e
  | .ok qc =>
    .ok ((env.searchFn qc.1 verbose qc.2).map (fun r => Ev.result r.1 r.2) ++
      [Ev.timing])

/-- Embedding of `Cli.do_search` (`None` argument would hit `'CENTER' in None`). -/
def do_search (env : Env) (arg : Option String) : Except ExcKind (List Ev) :=
  match arg with
  | none => .error .typeError
  | some q => searchRun env q false

/-- Embedding of `Cli.do_explain`. -/
def do_explain (env : Env) (arg : Option String) : Except ExcKind (List Ev) :=
  match arg with
  | none => .error .typeError
  | some q => searchRun env q true

/-- Embedding of `Cli.do_tokenize`. -/
def do_tokenize (env : Env) (arg : Option String) : Except ExcKind (List Ev) :=
  match arg with
  | none => .error .typeError
  | some s => .ok [Ev.tokens (env.tokenize s)]

/-- Embedding of `Cli.do_help` (`*args`, so any argument is accepted). -/
def do_help (_env : Env) (_arg : Option String) : Except ExcKind (List Ev) :=
  .ok (COMMANDS.map Ev.helpLine)

/-- One step of the field loop in `Cli.do_get`: a housenumber field is
collected into the aggregate mapping, any other field is printed. -/
def getStep (acc : List Ev × List (String × String)) (kv : String × String) :
    List Ev × List (String × String) :=
  if pyStartsWith kv.1 "h|" then (acc.1, acc.2 ++ [kv])
  else (acc.1 ++ [Ev.field kv.1 kv.2], acc.2)

/-- Embedding of the body of `Cli.do_get`: print every non-housenumber
field in mapping order, then the aggregated housenumbers mapping when
non-empty. -/
def getEvents (env : Env) (id : String) : List Ev :=
  let r := (env.hgetall (document_key id)).foldl getStep ([], [])
  r.1 ++ (if r.2.isEmpty then [] else [Ev.housenumbers r.2])

/-- Embedding of `Cli.do_get`. -/
def do_get (env : Env) (arg : Option String) : Except ExcKind (List Ev) :=
  match arg with
  | none => .error .typeError
  | some id => .ok (getEvents env id)

/-- Embedding of the module-level `word_frequency`: first token of the
tokenized word (unguarded index 0), then its frequency. -/
def word_frequency (env : Env) (word : String) : Except ExcKind ℚ :=
  match env.tokenize word with
  | [] => .error .indexError
  | t :: _ => .ok (env.tokenFrequency t)

/-- Embedding of `Cli.do_frequency`. -/
def do_frequency (env : Env) (arg : Option String) : Except ExcKind (List Ev) :=
  match arg with
  | none => .error .typeError
  | some w => (word_frequency env w).map (fun q => [Ev.freq q])

/-- Embedding of `Cli.do_autocomplete`: first token (unguarded index 0),
autocomplete keys, suffix after the first `|` of each key (unguarded
index 1). -/
def do_autocomplete (env : Env) (arg : Option String) : Except ExcKind (List Ev) :=
  match arg with
  | none => .error .typeError
  | some s =>
    match env.tokenize s with
    | [] => .error .indexError
    | t :: _ => do
      let keys ← (env.autocompleteKeys t).mapM fun k =>
        match (pySplitOn k "|").get? 1 with
        | some suffix => Except.ok suffix
        | none => Except.error ExcKind.indexError
      pure [Ev.tokens keys, Ev.count keys.length]

/-- Embedding of `Cli._print_field_index_details`: one entry per token of
the tokenized field value, carrying the posting-list score and the
descending rank of the document, each of which is queried exactly once per
entry. -/
def fieldIndexDetails (env : Env) (field id : String) :
    List (String × Option ℚ × Option Nat) :=
  (env.tokenize field).map fun t =>
    (t, zscore env (token_key t) (document_key id),
     zrevrank env (token_key t) (document_key id))

/-- Python mapping access `doc[key]`: raises `KeyError` when absent. -/
def pyLookup (doc : List (String × String)) (key : String) :
    Except ExcKind String :=
  match doc.lookup key with
  | some v => .ok v
  | none => .error .keyError

/-- Embedding of the body of `Cli.do_index`: index details of the four
fields `name`, `postcode`, `city`, `context`, in that order. -/
def indexDetails (env : Env) (id : String) :
    Except ExcKind (List (String × Option ℚ × Option Nat)) := do
  let doc := env.hgetall (document_key id)
  let nm ← pyLookup doc "name"
  let d1 := fieldIndexDetails env nm id
  let pc ← pyLookup doc "postcode"
  let d2 := fieldIndexDetails env pc id
  let ct ← pyLookup doc "city"
  let d3 := fieldIndexDetails env ct id
  let cx ← pyLookup doc "context"
  let d4 := fieldIndexDetails env cx id
  pure (d1 ++ d2 ++ d3 ++ d4)

/-- Embedding of `Cli.do_index`. -/
def do_index (env : Env) (arg : Option String) : Except ExcKind (List Ev) :=
  match arg with
  | none => .error .typeError
  | some id =>
    (indexDetails env id).map (fun l => l.map fun e => Ev.idx e.1 e.2.1 e.2.2)

/-- Embedding of the fetch in `Cli.do_bestscore`: the top 21 posting-list
entries (descending ranks 0 through 20) of the first token of the word
(unguarded index 0). -/
def bestscoreEntries (env : Env) (word : String) :
    Except ExcKind (List (String × ℚ)) :=
  match env.tokenize word with
  | [] => .error .indexError
  | t :: _ => .ok (zrevrange env (token_key t) 0 20)

/-- Embedding of `Cli.do_bestscore`. -/
def do_bestscore (env : Env) (arg : Option String) : Except ExcKind (List Ev) :=
  match arg with
  | none => .error .typeError
  | some w => (bestscoreEntries env w).map (fun l => l.map fun e => Ev.result e.1 e.2)

/-- Embedding of `Cli.do_reverse`: `lat, lon = latlon.split()` (an uncaught
`ValueError` unless exactly two parts), two `float` conversions (uncaught
`ValueError` when malformed), then the reverse-geocoding results. -/
def do_reverse (env : Env) (arg : Option String) : Except ExcKind (List Ev) :=
  match arg with
  | none => .error .attributeError
  | some latlon =>
    match pyWsSplit latlon with
    | [lat, lon] =>
      match pyFloat lat, pyFloat lon with
      | some la, some lo =>
        .ok ((env.reverseFn la lo).map fun r => Ev.revResult r.1 r.2.1 r.2.2)
      | _, _ => .error .valueError
    | _ => .error .valueError

/-- Embedding of `Cli.do_pair`: first token (unguarded index 0), pair-set
members sorted lexicographically, list and count. -/
def do_pair (env : Env) (arg : Option String) : Except ExcKind (List Ev) :=
  match arg with
  | none => .error .typeError
  | some word =>
    match env.tokenize word with
    | [] => .error .indexError
    | t :: _ =>
      let tokens := (env.smembers (pair_key t)).insertionSort (· ≤ ·)
      .ok [Ev.tokens tokens, Ev.count tokens.length]

/-- Embedding of `Cli.do_distance`: split on `|`; with exactly two parts
invoke the n-gram comparison on them, otherwise print the malformed-string
message and return. -/
def do_distance (env : Env) (arg : Option String) : Except ExcKind (List Ev) :=
  match arg with
  | none => .error .attributeError
  | some s =>
    match pySplitOn s "|" with
    | [one, two] => .ok [Ev.ngram one two (env.compareNgrams one two)]
    | _ => .ok [Ev.distanceMalformed]

/-- The fixed keys `Cli.do_dbinfo` reads from the server info mapping. -/
def dbinfoKeys : List String :=
  ["keyspace_misses", "keyspace_hits", "used_memory_human",
   "total_commands_processed", "total_connections_received",
   "connected_clients"]

/-- Embedding of `Cli.do_dbinfo` (`*args`): print a fixed subset of the
server info, then the key count of db 0; a missing entry raises `KeyError`. -/
def do_dbinfo (env : Env) (_arg : Option String) : Except ExcKind (List Ev) := do
  let evs ← dbinfoKeys.mapM fun k =>
    match env.info.lookup k with
    | some v => Except.ok (Ev.infoLine k v)
    | none => Except.error ExcKind.keyError
  match env.infoDb0Keys with
  | some cnt => pure (evs ++ [Ev.infoLine "nb keys" cnt])
  | none => Except.error ExcKind.keyError

/-- Embedding of `Cli.do_dbkey`: display the key's members for a set, its
field mapping for a hash, and an unsupported-type message otherwise. -/
def do_dbkey (env : Env) (arg : Option String) : Except ExcKind (List Ev) :=
  match arg with
  | none => .error .typeError
  | some key =>
    let t := env.dbtype key
    if t = "set" then .ok [Ev.dbkeyOut t (DbVal.set (env.smembers key))]
    else if t = "hash" then .ok [Ev.dbkeyOut t (DbVal.hash (env.hgetall key))]
    else .ok [Ev.dbkeyOut t DbVal.unsupported]

/-- Embedding of `Cli.do_geodistance`: only the argument unpacking is inside
the `try`, so a wrong arity (or a missing argument) prints the malformed
message, while the later conversions and lookups raise. -/
def do_geodistance (env : Env) (arg : Option String) : Except ExcKind (List Ev) :=
  match arg with
  | none => .ok [Ev.geodistMalformed]
  | some s =>
    match pyWsSplit s with
    | [id, lat, lon] =>
      match env.resultLatLon (document_key id) with
      | none => .error .otherError
      | some rll =>
        match pyFloat lat, pyFloat lon with
        | some clat, some clon =>
          match pyFloat rll.1, pyFloat rll.2 with
          | some rla, some rlo =>
            let km := env.haversine (rla, rlo) (clat, clon)
            .ok [Ev.geodistOut km (env.kmToScore km)]
          | _, _ => .error .valueError
        | _, _ => .error .valueError
    | _ => .ok [Ev.geodistMalformed]

/-- The coordinate ring `Cli.do_geohashtogeojson` builds from the decoded
bounding box: the corners west/north, east/north, east/south, west/south,
closed by repeating the first. -/
def polygonRing (b : Bbox) : List (ℚ × ℚ) :=
  [(b.w, b.n), (b.e, b.n), (b.e, b.s), (b.w, b.s), (b.w, b.n)]

/-- Embedding of `Cli.do_geohashtogeojson`: decode the geohash (a failure
of the external decoder propagates), emit the closed polygon. -/
def do_geohashtogeojson (env : Env) (arg : Option String) :
    Except ExcKind (List Ev) :=
  match arg with
  | none => .error .typeError
  | some g =>
    match env.bbox g with
    | none => .error .otherError
    | some b => .ok [Ev.geojson (polygonRing b)]

/-- Invoke the `do_` method with the given lower-cased name, when it exists
(`getattr(self, fx_name)(arg)`). -/
def runDo (env : Env) (name : String) (arg : Option String) :
    Option (Except ExcKind (List Ev)) :=
  if name = "autocomplete" then some (do_autocomplete env arg)
  else if name = "bestscore" then some (do_bestscore env arg)
  else if name = "dbinfo" then some (do_dbinfo env arg)
  else if name = "dbkey" then some (do_dbkey env arg)
  else if name = "distance" then some (do_distance env arg)
  else if name = "explain" then some (do_explain env arg)
  else if name = "frequency" then some (do_frequency env arg)
  else if name = "geodistance" then some (do_geodistance env arg)
  else if name = "geohashtogeojson" then some (do_geohashtogeojson env arg)
  else if name = "get" then some (do_get env arg)
  else if name = "help" then some (do_help env arg)
  else if name = "index" then some (do_index env arg)
  else if name = "pair" then some (do_pair env arg)
  else if name = "reverse" then some (do_reverse env arg)
  else if name = "search" then some (do_search env arg)
  else if name = "tokenize" then some (do_tokenize env arg)
  else none

/-- Embedding of one full `Cli.handle_command` call: dispatch, then run the
resolved operation or print the `No command` message. -/
def execLine (env : Env) (line : String) : Except ExcKind (List Ev) :=
  match handle_command line with
  | .noop => .ok []
  | .invoke action arg =>
    match runDo env (pyLower action) arg with
    | some r => r
    | none => .ok [Ev.noCommandMsg line]
  | .noCommand l => .ok [Ev.noCommandMsg l]

/-- Result of one iteration of the `while 1` loop in `Cli.__call__`. -/
inductive StepRes where
  | continueLoop (evs : List Ev)
  | exitLoop (evs : List Ev)
  | crash (e : ExcKind)
deriving DecidableEq, Repr

/-- The two exception classes the loop in `Cli.__call__` catches. -/
def caughtByLoop (e : ExcKind) : Bool :=
  e == ExcKind.keyboardInterrupt || e == ExcKind.eofError

/-- Embedding of one iteration of the read loop in `Cli.__call__`: the
prompt either yields a line or raises (interrupt / end of input); the line
is handled; a caught exception prints the farewell and leaves the loop; an
uncaught one propagates out of `Cli.__call__`; a normal command prints the
separator line before the next prompt. -/
def shellStep (env : Env) (promptRes : Except ExcKind String) : StepRes :=
  match promptRes with
  | .error e => if caughtByLoop e then .exitLoop [Ev.farewell] else .crash e
  | .ok line =>
    match execLine env line with
    | .ok evs => .continueLoop (evs ++ [Ev.separator])
    | .error e => if caughtByLoop e then .exitLoop [Ev.farewell] else .crash e

/-- A minimal concrete environment: empty index, no results. -/
def env0 : Env :=
  { tokenize := fun _ => []
    zset := fun _ => []
    hgetall := fun _ => []
    smembers := fun _ => []
    tokenFrequency := fun _ => 0
    compareNgrams := fun _ _ => 0
    autocompleteKeys := fun _ => []
    searchFn := fun _ _ _ => []
    reverseFn := fun _ _ => []
    dbtype := fun _ => "none"
    info := []
    infoDb0Keys := none
    bbox := fun _ => none
    resultLatLon := fun _ => none
    haversine := fun _ _ => 0
    kmToScore := fun _ => 0 }

/-- Environment with a non-empty tokenization and a three-entry posting
list, for exercising `BESTSCORE`. -/
def envBest : Env :=
  { env0 with
    tokenize := fun _ => ["lilas"]
    zset := fun _ => [("a", 1), ("b", 5), ("c", 3)] }

/-- Environment with one indexed document carrying the four indexed fields. -/
def envIdx : Env :=
  { env0 with
    tokenize := pyWsSplit
    hgetall := fun _ =>
      [("name", "rue des lilas"), ("postcode", "75020"),
       ("city", "paris"), ("context", "yvelines")] }

/-- Environment with one document holding a name field and a housenumber
field. -/
def envDoc : Env :=
  { env0 with hgetall := fun _ => [("name", "X"), ("h|11", "J")] }

/-- Environment whose geohash decoder returns a fixed bounding box. -/
def envGeo : Env :=
  { env0 with bbox := fun _ => some { n := 2, s := 1, e := 4, w := 3 } }

/-- Test that the text after the (single) `CENTER` occurrence consists of
exactly two whitespace-separated parseable float literals. -/
def centerWellFormed (query : String) : Bool :=
  match pySplitOn query "CENTER" with
  | [_, center] =>
    match pyWsSplit center with
    | [a, b] => (pyFloat a).isSome && (pyFloat b).isSome
    | _ => false
  | _ => false

/-- The descending-score ordering on posting-list entries is total. -/
instance : IsTotal (String × ℚ) (fun a b => b.2 ≤ a.2) :=
  ⟨fun a b => le_total b.2 a.2⟩

/-- The descending-score ordering on posting-list entries is transitive. -/
instance : IsTrans (String × ℚ) (fun a b => b.2 ≤ a.2) :=
  ⟨fun _ _ _ hab hbc => le_trans hbc hab⟩

/-- Any nonempty line of which no registered keyword is a string prefix is
dispatched as a SEARCH of the whole line. -/
theorem dispatch_default_of_not_startsWith (line : String) (h1 : line ≠ "")
    (h2 : startsWithAnyCommand line = false) :
    handle_command line = Dispatch.invoke "SEARCH" (some line) := by
  have h3 : hasDo "SEARCH" = true := by decide
  simp [handle_command, h1, h2, h3]

/-- A nonempty prefix forces the head of the larger list. -/
theorem isPrefixOf_cons_head {a c : Char} {k rest : List Char}
    (hx : List.isPrefixOf (a :: k) (c :: rest) = true) : c = a := by
  simp [List.isPrefixOf] at hx
  exact hx.1.symm

/-- No registered keyword is a prefix of a line made only of whitespace. -/
theorem ws_startsWithAny_false (line : String)
    (h : ∀ c ∈ line.toList, c.isWhitespace = true) :
    startsWithAnyCommand line = false := by
  cases hl : line.toList with
  | nil =>
    simp only [startsWithAnyCommand, pyStartsWith, hl]
    decide
  | cons c rest =>
    have hcw : c.isWhitespace = true := by
      refine h c ?_
      rw [hl]
      exact List.mem_cons_self c rest
    simp only [startsWithAnyCommand, pyStartsWith, hl]
    rw [List.any_eq_false]
    intro k hk
    fin_cases hk <;>
      · intro hx
        have hc := isPrefixOf_cons_head hx
        rw [hc] at hcw
        exact absurd hcw (by decide)

/-- Dispatching is what running a line starts with. -/
theorem execLine_noCommand (env : Env) {line : String}
    (h : handle_command line = Dispatch.noCommand line) :
    execLine env line = Except.ok [Ev.noCommandMsg line] := by
  unfold execLine
  rw [h]

/-- Executing a dispatched invocation runs the resolved `do_` method. -/
theorem execLine_invoke (env : Env) {line action : String} {arg : Option String}
    (h : handle_command line = Dispatch.invoke action arg) :
    execLine env line =
      (match runDo env (pyLower action) arg with
       | some r => r
       | none => Except.ok [Ev.noCommandMsg line]) := by
  unfold execLine
  rw [h]

/-- C1 counterexample: the line `HELPER x` does not start with a registered
keyword in the claim's sense (its upper-cased first whitespace-delimited
token `HELPER` is not registered), yet dispatch is not `SEARCH` of the
line: the prefix test matches the keyword `HELP`, so the line is reported
as an unrecognized command. -/
theorem C1_counterexample :
    pyUpper ((pyWsSplit "HELPER x").headD "") ∉ COMMANDS ∧
    handle_command "HELPER x" ≠ Dispatch.invoke "SEARCH" (some "HELPER x") ∧
    handle_command "HELPER x" = Dispatch.noCommand "HELPER x" :=
  ⟨by decide, by decide, by decide⟩

/-- C1 (amended): for every nonempty input line of which no registered
command keyword is a case-sensitive string prefix, dispatching the line
invokes SEARCH with the entire line, verbatim, as its argument. -/
theorem C1_default_search (line : String) (h1 : line ≠ "")
    (h2 : startsWithAnyCommand line = false) :
    handle_command line = Dispatch.invoke "SEARCH" (some line) :=
  dispatch_default_of_not_startsWith line h1 h2

/-- C1 witness: the concrete line ` hello` is nonempty, no keyword is a
prefix of it, and it is dispatched as `SEARCH  hello`. -/
theorem C1_witness :
    " hello" ≠ "" ∧ startsWithAnyCommand " hello" = false ∧
    handle_command " hello" = Dispatch.invoke "SEARCH" (some " hello") :=
  ⟨by decide, by decide, C1_default_search " hello" (by decide) (by decide)⟩

/-- C3 counterexample: a whitespace-only line is not trimmed to a no-op; it
is dispatched as a SEARCH of the single space, which produces output (the
timing line), so it is neither a no-op nor output-free. -/
theorem C3_counterexample :
    handle_command " " = Dispatch.invoke "SEARCH" (some " ") ∧
    execLine env0 " " = Except.ok [Ev.timing] ∧
    execLine env0 " " ≠ Except.ok [] :=
  ⟨by decide, by decide, by decide⟩

/-- C3 (amended): input is not trimmed before dispatch; only the exactly
empty line is a no-op (no error, no output, no state change), while a
nonempty whitespace-only line is dispatched as SEARCH with the line
verbatim. -/
theorem C3_empty_line_noop :
    (∀ env : Env, execLine env "" = Except.ok []) ∧
    handle_command "" = Dispatch.noop ∧
    (∀ line : String, line ≠ "" → (∀ c ∈ line.toList, c.isWhitespace = true) →
      handle_command line = Dispatch.invoke "SEARCH" (some line)) :=
  ⟨fun _ => rfl, rfl,
   fun line h1 h2 =>
     dispatch_default_of_not_startsWith line h1 (ws_startsWithAny_false line h2)⟩

/-- C3 witness: the empty line is a no-op in a concrete environment, and
the concrete whitespace-only line of one space is dispatched as a search. -/
theorem C3_witness :
    execLine env0 "" = Except.ok [] ∧
    handle_command " " = Dispatch.invoke "SEARCH" (some " ") :=
  ⟨C3_empty_line_noop.1 env0,
   C3_empty_line_noop.2.2 " " (by decide) (by decide)⟩

/-- C4 (confirmed): DISTANCE with an argument whose split on `|` does not
have exactly two parts prints the malformed-string message, without
raising and without invoking the n-gram comparison; with exactly two parts
it invokes the n-gram comparison on them. -/
theorem C4_distance (env : Env) (s : String) :
    ((pySplitOn s "|").length ≠ 2 →
      do_distance env (some s) = Except.ok [Ev.distanceMalformed]) ∧
    (∀ one two, pySplitOn s "|" = [one, two] →
      do_distance env (some s) =
        Except.ok [Ev.ngram one two (env.compareNgrams one two)]) := by
  have hds : do_distance env (some s) =
      (match pySplitOn s "|" with
       | [one, two] => Except.ok [Ev.ngram one two (env.compareNgrams one two)]
       | _ => Except.ok [Ev.distanceMalformed]) := rfl
  constructor
  · intro hlen
    rw [hds]
    rcases hsp : pySplitOn s "|" with _ | ⟨x, _ | ⟨y, _ | ⟨z, t⟩⟩⟩
    · rfl
    · rfl
    · exact absurd (by rw [hsp]; rfl) hlen
    · rfl
  · intro one two hsp
    rw [hds, hsp]

/-- C4 witness: concrete malformed arguments (`a`, `a|b|c`) print the
malformed message, and `a|b` invokes the comparison on `a` and `b`. -/
theorem C4_witness :
    do_distance env0 (some "a") = Except.ok [Ev.distanceMalformed] ∧
    do_distance env0 (some "a|b|c") = Except.ok [Ev.distanceMalformed] ∧
    do_distance env0 (some "a|b") = Except.ok [Ev.ngram "a" "b" 0] :=
  ⟨(C4_distance env0 "a").1 (by decide),
   (C4_distance env0 "a|b|c").1 (by decide),
   (C4_distance env0 "a|b").2 "a" "b" (by decide)⟩

/-- C10 (confirmed): FREQUENCY, AUTOCOMPLETE, BESTSCORE and PAIR all index
the first element of the tokenizer's output without a guard, so an
argument whose tokenization is empty makes each of them raise the index
error instead of printing a handled user-error message. -/
theorem C10_first_token_unguarded (env : Env) (s : String)
    (h : env.tokenize s = []) :
    do_frequency env (some s) = Except.error ExcKind.indexError ∧
    do_autocomplete env (some s) = Except.error ExcKind.indexError ∧
    do_bestscore env (some s) = Except.error ExcKind.indexError ∧
    do_pair env (some s) = Except.error ExcKind.indexError := by
  refine ⟨?_, ?_, ?_, ?_⟩ <;>
    simp [do_frequency, word_frequency, do_autocomplete, do_bestscore,
      bestscoreEntries, do_pair, h, Except.map]

/-- C10 witness: in the concrete empty environment the tokenization of `x`
is empty and all four commands raise the index error. -/
theorem C10_witness :
    do_frequency env0 (some "x") = Except.error ExcKind.indexError ∧
    do_autocomplete env0 (some "x") = Except.error ExcKind.indexError ∧
    do_bestscore env0 (some "x") = Except.error ExcKind.indexError ∧
    do_pair env0 (some "x") = Except.error ExcKind.indexError :=
  C10_first_token_unguarded env0 "x" rfl

/-- Executing a line dispatched to a resolvable method runs that method. -/
theorem execLine_invoke_runs (env : Env) {line action : String}
    {arg : Option String} {r : Except ExcKind (List Ev)}
    (h : handle_command line = Dispatch.invoke action arg)
    (hr : runDo env (pyLower action) arg = some r) :
    execLine env line = r := by
  have h1 : execLine env line =
      (match runDo env (pyLower action) arg with
       | some r => r
       | none => Except.ok [Ev.noCommandMsg line]) := by
    unfold execLine
    rw [h]
  rw [h1, hr]

/-- DISTANCE prints the malformed message whenever the split is not a pair. -/
theorem do_distance_malformed (env : Env) (s : String)
    (hlen : (pySplitOn s "|").length ≠ 2) :
    do_distance env (some s) = Except.ok [Ev.distanceMalformed] := by
  have hds : do_distance env (some s) =
      (match pySplitOn s "|" with
       | [one, two] => Except.ok [Ev.ngram one two (env.compareNgrams one two)]
       | _ => Except.ok [Ev.distanceMalformed]) := rfl
  rw [hds]
  rcases hsp : pySplitOn s "|" with _ | ⟨x, _ | ⟨y, _ | ⟨z, t⟩⟩⟩
  · rfl
  · rfl
  · exact absurd (by rw [hsp]; rfl) hlen
  · rfl

/-- REVERSE raises `ValueError` when its first float conversion fails. -/
theorem do_reverse_badfloat (env : Env) (s a b : String)
    (hsplit : pyWsSplit s = [a, b]) (hfa : pyFloat a = none) :
    do_reverse env (some s) = Except.error ExcKind.valueError := by
  have hdr : do_reverse env (some s) =
      (match pyWsSplit s with
       | [lat, lon] =>
         match pyFloat lat, pyFloat lon with
         | some la, some lo =>
           Except.ok ((env.reverseFn la lo).map fun r =>
             Ev.revResult r.1 r.2.1 r.2.2)
         | _, _ => Except.error ExcKind.valueError
       | _ => Except.error ExcKind.valueError) := rfl
  rw [hdr, hsplit]
  show (match pyFloat a, pyFloat b with
        | some la, some lo =>
          Except.ok ((env.reverseFn la lo).map fun r =>
            Ev.revResult r.1 r.2.1 r.2.2)
        | _, _ => Except.error ExcKind.valueError) =
      Except.error ExcKind.valueError
  rw [hfa]

/-- REVERSE raises `ValueError` when the whitespace split of its argument
does not unpack into exactly two parts. -/
theorem do_reverse_badarity (env : Env) (s : String)
    (hlen : (pyWsSplit s).length ≠ 2) :
    do_reverse env (some s) = Except.error ExcKind.valueError := by
  have hdr : do_reverse env (some s) =
      (match pyWsSplit s with
       | [lat, lon] =>
         match pyFloat lat, pyFloat lon with
         | some la, some lo =>
           Except.ok ((env.reverseFn la lo).map fun r =>
             Ev.revResult r.1 r.2.1 r.2.2)
         | _, _ => Except.error ExcKind.valueError
       | _ => Except.error ExcKind.valueError) := rfl
  rw [hdr]
  rcases hsp : pyWsSplit s with _ | ⟨x, _ | ⟨y, _ | ⟨z, t⟩⟩⟩
  · rfl
  · rfl
  · exact absurd (by rw [hsp]; rfl) hlen
  · rfl

/-- GEODISTANCE prints the malformed message (inside its `try`) whenever
the whitespace split of its argument does not unpack into three parts. -/
theorem do_geodistance_malformed (env : Env) (s : String)
    (hlen : (pyWsSplit s).length ≠ 3) :
    do_geodistance env (some s) = Except.ok [Ev.geodistMalformed] := by
  have hdg : do_geodistance env (some s) =
      (match pyWsSplit s with
       | [id, lat, lon] =>
         match env.resultLatLon (document_key id) with
         | none => Except.error ExcKind.otherError
         | some rll =>
           match pyFloat lat, pyFloat lon with
           | some clat, some clon =>
             match pyFloat rll.1, pyFloat rll.2 with
             | some rla, some rlo =>
               let km := env.haversine (rla, rlo) (clat, clon)
               Except.ok [Ev.geodistOut km (env.kmToScore km)]
             | _, _ => Except.error ExcKind.valueError
           | _, _ => Except.error ExcKind.valueError
       | _ => Except.ok [Ev.geodistMalformed]) := rfl
  rw [hdg]
  rcases hsp : pyWsSplit s with _ | ⟨x, _ | ⟨y, _ | ⟨z, _ | ⟨w, u⟩⟩⟩⟩
  · rfl
  · rfl
  · rfl
  · exact absurd (by rw [hsp]; rfl) hlen
  · rfl

/-- C2 counterexample: a malformed numeric argument to REVERSE is not
reported inline and does not let the loop continue: handling
`REVERSE a b` raises an uncaught `ValueError` that escapes the read loop,
which catches only the interrupt and end-of-input exceptions. -/
theorem C2_counterexample :
    shellStep env0 (Except.ok "REVERSE a b") = StepRes.crash ExcKind.valueError ∧
    caughtByLoop ExcKind.valueError = false :=
  ⟨by decide, by decide⟩

/-- C2 (amended): unrecognized commands, DISTANCE part-count errors and
GEODISTANCE arity errors are reported inline as output and are non-fatal
(the loop continues), and interrupt or end-of-input exit the loop with the
farewell message; but a wrong-arity or non-parseable numeric argument to
REVERSE raises an uncaught `ValueError` that terminates the shell, because
the read loop catches only the interrupt and end-of-input exceptions. -/
theorem C2_error_handling (env : Env) :
    (∀ line, handle_command line = Dispatch.noCommand line →
      shellStep env (Except.ok line) =
        StepRes.continueLoop [Ev.noCommandMsg line, Ev.separator]) ∧
    (∀ line s, handle_command line = Dispatch.invoke "DISTANCE" (some s) →
      (pySplitOn s "|").length ≠ 2 →
      shellStep env (Except.ok line) =
        StepRes.continueLoop [Ev.distanceMalformed, Ev.separator]) ∧
    (∀ line s, handle_command line = Dispatch.invoke "GEODISTANCE" (some s) →
      (pyWsSplit s).length ≠ 3 →
      shellStep env (Except.ok line) =
        StepRes.continueLoop [Ev.geodistMalformed, Ev.separator]) ∧
    (∀ line s, handle_command line = Dispatch.invoke "REVERSE" (some s) →
      (pyWsSplit s).length ≠ 2 →
      shellStep env (Except.ok line) = StepRes.crash ExcKind.valueError) ∧
    (∀ line s a b, handle_command line = Dispatch.invoke "REVERSE" (some s) →
      pyWsSplit s = [a, b] → pyFloat a = none →
      shellStep env (Except.ok line) = StepRes.crash ExcKind.valueError) ∧
    shellStep env (Except.error ExcKind.keyboardInterrupt) =
      StepRes.exitLoop [Ev.farewell] ∧
    shellStep env (Except.error ExcKind.eofError) =
      StepRes.exitLoop [Ev.farewell] := by
  refine ⟨?_, ?_, ?_, ?_, ?_, rfl, rfl⟩
  · intro line h
    have he := execLine_noCommand env h
    simp [shellStep, he]
  · intro line s h hlen
    have he := execLine_invoke_runs env h
      (show runDo env (pyLower "DISTANCE") (some s) =
        some (do_distance env (some s)) from rfl)
    rw [do_distance_malformed env s hlen] at he
    simp [shellStep, he]
  · intro line s h hlen
    have he := execLine_invoke_runs env h
      (show runDo env (pyLower "GEODISTANCE") (some s) =
        some (do_geodistance env (some s)) from rfl)
    rw [do_geodistance_malformed env s hlen] at he
    simp [shellStep, he]
  · intro line s h hlen
    have he := execLine_invoke_runs env h
      (show runDo env (pyLower "REVERSE") (some s) =
        some (do_reverse env (some s)) from rfl)
    rw [do_reverse_badarity env s hlen] at he
    simp [shellStep, he, caughtByLoop]
  · intro line s a b h hsplit hfa
    have he := execLine_invoke_runs env h
      (show runDo env (pyLower "REVERSE") (some s) =
        some (do_reverse env (some s)) from rfl)
    rw [do_reverse_badfloat env s a b hsplit hfa] at he
    simp [shellStep, he, caughtByLoop]

/-- C2 witness: concrete inputs exercising each clause: the unrecognized
line `GETX y`, the malformed `DISTANCE a` and the two-part
`GEODISTANCE 7 48` continue the loop with an inline message, the
one-part `REVERSE 48` and the non-numeric `REVERSE a b` crash it, and end
of input exits it. -/
theorem C2_witness :
    shellStep env0 (Except.ok "GETX y") =
      StepRes.continueLoop [Ev.noCommandMsg "GETX y", Ev.separator] ∧
    shellStep env0 (Except.ok "DISTANCE a") =
      StepRes.continueLoop [Ev.distanceMalformed, Ev.separator] ∧
    shellStep env0 (Except.ok "GEODISTANCE 7 48") =
      StepRes.continueLoop [Ev.geodistMalformed, Ev.separator] ∧
    shellStep env0 (Except.ok "REVERSE 48") =
      StepRes.crash ExcKind.valueError ∧
    shellStep env0 (Except.ok "REVERSE a b") =
      StepRes.crash ExcKind.valueError ∧
    shellStep env0 (Except.error ExcKind.eofError) =
      StepRes.exitLoop [Ev.farewell] :=
  ⟨(C2_error_handling env0).1 "GETX y" (by decide),
   (C2_error_handling env0).2.1 "DISTANCE a" "a" (by decide) (by decide),
   (C2_error_handling env0).2.2.1 "GEODISTANCE 7 48" "7 48" (by decide) (by decide),
   (C2_error_handling env0).2.2.2.1 "REVERSE 48" "48" (by decide) (by decide),
   (C2_error_handling env0).2.2.2.2.1 "REVERSE a b" "a b" "a" "b"
     (by decide) (by decide) (by decide),
   (C2_error_handling env0).2.2.2.2.2.2⟩

/-- C5 (confirmed): a successful BESTSCORE fetch returns at most 21
posting-list entries (descending ranks 0 through 20 of the first token's
posting list), ordered by non-increasing score. -/
theorem C5_bestscore (env : Env) (word : String) (l : List (String × ℚ))
    (h : bestscoreEntries env word = Except.ok l) :
    l.length ≤ 21 ∧ l.Pairwise (fun a b => b.2 ≤ a.2) := by
  have hb : bestscoreEntries env word =
      (match env.tokenize word with
       | [] => Except.error ExcKind.indexError
       | t :: _ => Except.ok (zrevrange env (token_key t) 0 20)) := rfl
  rw [hb] at h
  rcases ht : env.tokenize word with _ | ⟨t, rest⟩
  · rw [ht] at h
    exact Except.noConfusion h
  · rw [ht] at h
    have hl : l = zrevrange env (token_key t) 0 20 := (Except.ok.inj h).symm
    subst hl
    constructor
    · have h1 : zrevrange env (token_key t) 0 20 =
          ((((env.zset (token_key t)).insertionSort
            (fun a b => b.2 ≤ a.2)).drop 0).take 21) := rfl
      rw [h1, List.length_take]
      exact min_le_left _ _
    · have hs : ((env.zset (token_key t)).insertionSort
          (fun a b : String × ℚ => b.2 ≤ a.2)).Pairwise (fun a b => b.2 ≤ a.2) :=
        List.sorted_insertionSort _ _
      exact List.Pairwise.sublist (List.take_sublist _ _) hs

/-- C5 witness: in a concrete environment with an unsorted three-entry
posting list, BESTSCORE returns the entries sorted by descending score,
within the 21-entry bound. -/
theorem C5_witness :
    bestscoreEntries envBest "lilas" =
      Except.ok [("b", (5 : ℚ)), ("c", 3), ("a", 1)] ∧
    ([("b", (5 : ℚ)), ("c", 3), ("a", 1)]).length ≤ 21 ∧
    ([("b", (5 : ℚ)), ("c", 3), ("a", 1)]).Pairwise (fun a b => b.2 ≤ a.2) := by
  have hb : bestscoreEntries envBest "lilas" =
      Except.ok [("b", (5 : ℚ)), ("c", 3), ("a", 1)] := by decide
  have hc := C5_bestscore envBest "lilas" _ hb
  exact ⟨hb, hc.1, hc.2⟩

/-- Bind on a successful `Except` computation runs the continuation. -/
theorem except_ok_bind {ε α β : Type _} (a : α) (f : α → Except ε β) :
    ((Except.ok a : Except ε α) >>= f) = f a :=
  rfl

/-- Bind on a failed `Except` computation short-circuits. -/
theorem except_error_bind {ε α β : Type _} (e : ε) (f : α → Except ε β) :
    ((Except.error e : Except ε α) >>= f) = Except.error e :=
  rfl

/-- C6 (confirmed): when the four fields `name`, `postcode`, `city`,
`context` are all present, INDEX produces exactly one detail entry per
token of each field's tokenized value, in that field order, each entry
querying the posting-list score and the descending rank of the document
once; when any of the four fields is missing, the field access raises the
lookup error. -/
theorem C6_index (env : Env) (id : String) :
    (∀ nm pc ct cx,
      (env.hgetall (document_key id)).lookup "name" = some nm →
      (env.hgetall (document_key id)).lookup "postcode" = some pc →
      (env.hgetall (document_key id)).lookup "city" = some ct →
      (env.hgetall (document_key id)).lookup "context" = some cx →
      indexDetails env id = Except.ok
        ((env.tokenize nm ++ env.tokenize pc ++ env.tokenize ct ++
          env.tokenize cx).map fun t =>
            (t, zscore env (token_key t) (document_key id),
             zrevrank env (token_key t) (document_key id)))) ∧
    (((env.hgetall (document_key id)).lookup "name" = none ∨
      (env.hgetall (document_key id)).lookup "postcode" = none ∨
      (env.hgetall (document_key id)).lookup "city" = none ∨
      (env.hgetall (document_key id)).lookup "context" = none) →
      indexDetails env id = Except.error ExcKind.keyError) := by
  constructor
  · intro nm pc ct cx h1 h2 h3 h4
    simp [indexDetails, pyLookup, h1, h2, h3, h4, except_ok_bind,
      fieldIndexDetails, List.map_append]
  · intro hmiss
    rcases hn : (env.hgetall (document_key id)).lookup "name" with _ | nm
    · simp [indexDetails, pyLookup, hn, except_error_bind]
    · rcases hp : (env.hgetall (document_key id)).lookup "postcode" with _ | pc
      · simp [indexDetails, pyLookup, hn, hp, except_ok_bind, except_error_bind]
      · rcases hc : (env.hgetall (document_key id)).lookup "city" with _ | ct
        · simp [indexDetails, pyLookup, hn, hp, hc, except_ok_bind,
            except_error_bind]
        · rcases hx : (env.hgetall (document_key id)).lookup "context" with _ | cx
          · simp [indexDetails, pyLookup, hn, hp, hc, hx, except_ok_bind,
              except_error_bind]
          · rcases hmiss with h | h | h | h
            · rw [hn] at h
              exact Option.noConfusion h
            · rw [hp] at h
              exact Option.noConfusion h
            · rw [hc] at h
              exact Option.noConfusion h
            · rw [hx] at h
              exact Option.noConfusion h

/-- C6 witness: a concrete document with the four fields, whitespace
tokenization: INDEX yields the per-token details of the four field values
in order. -/
theorem C6_witness :
    indexDetails envIdx "7" = Except.ok
      ((envIdx.tokenize "rue des lilas" ++ envIdx.tokenize "75020" ++
        envIdx.tokenize "paris" ++ envIdx.tokenize "yvelines").map fun t =>
          (t, zscore envIdx (token_key t) (document_key "7"),
           zrevrank envIdx (token_key t) (document_key "7"))) :=
  (C6_index envIdx "7").1 "rue des lilas" "75020" "paris" "yvelines"
    (by decide) (by decide) (by decide) (by decide)

/-- The field loop of GET, characterised: printed fields are the
non-housenumber entries in order, collected housenumbers are the
`h|`-prefixed entries in order. -/
theorem getStep_fold (l : List (String × String)) (evs : List Ev)
    (hn : List (String × String)) :
    l.foldl getStep (evs, hn) =
      (evs ++ (l.filter fun kv => !pyStartsWith kv.1 "h|").map
        (fun kv => Ev.field kv.1 kv.2),
       hn ++ l.filter fun kv => pyStartsWith kv.1 "h|") := by
  induction l generalizing evs hn with
  | nil => simp
  | cons kv t ih =>
    cases hp : pyStartsWith kv.1 "h|" <;>
      simp [List.foldl_cons, getStep, hp, ih, List.filter_cons,
        List.append_assoc]

/-- The output of GET: the non-housenumber fields in order, then the
aggregated housenumbers mapping when it is non-empty. -/
theorem getEvents_eq (env : Env) (id : String) :
    getEvents env id =
      ((env.hgetall (document_key id)).filter
        fun kv => !pyStartsWith kv.1 "h|").map (fun kv => Ev.field kv.1 kv.2) ++
      (if ((env.hgetall (document_key id)).filter
            fun kv => pyStartsWith kv.1 "h|").isEmpty
       then []
       else [Ev.housenumbers ((env.hgetall (document_key id)).filter
         fun kv => pyStartsWith kv.1 "h|")]) := by
  simp only [getEvents, getStep_fold, List.nil_append]

/-- C7 counterexample: on a missing document GET prints nothing at all: the
field mapping is empty, so no print statement runs, and in particular no
empty mapping is printed. -/
theorem C7_counterexample :
    env0.hgetall (document_key "nope") = [] ∧ getEvents env0 "nope" = [] :=
  ⟨rfl, by decide⟩

/-- C7 (amended): GET prints every non-housenumber field directly and in
order, aggregates all `h|`-prefixed fields into a single housenumbers
mapping printed once at the end (never printing a raw `h|`-prefixed key
directly), and on a missing document produces no output and raises no
error. -/
theorem C7_get (env : Env) (id : String) :
    getEvents env id =
      ((env.hgetall (document_key id)).filter
        fun kv => !pyStartsWith kv.1 "h|").map (fun kv => Ev.field kv.1 kv.2) ++
      (if ((env.hgetall (document_key id)).filter
            fun kv => pyStartsWith kv.1 "h|").isEmpty
       then []
       else [Ev.housenumbers ((env.hgetall (document_key id)).filter
         fun kv => pyStartsWith kv.1 "h|")]) ∧
    (∀ k v, Ev.field k v ∈ getEvents env id → pyStartsWith k "h|" = false) ∧
    (env.hgetall (document_key id) = [] → getEvents env id = []) := by
  refine ⟨getEvents_eq env id, ?_, ?_⟩
  · intro k v hm
    rw [getEvents_eq] at hm
    rcases List.mem_append.mp hm with hl | hr
    · rcases List.mem_map.mp hl with ⟨kv, hkv, heq⟩
      have h1 := (List.mem_filter.mp hkv).2
      obtain ⟨e1, e2⟩ : kv.1 = k ∧ kv.2 = v := by
        injection heq with e1 e2
        exact ⟨e1, e2⟩
      rw [e1] at h1
      simpa using h1
    · by_cases hemp : ((env.hgetall (document_key id)).filter
          fun kv => pyStartsWith kv.1 "h|").isEmpty = true
      · rw [if_pos hemp] at hr
        exact absurd hr (List.not_mem_nil _)
      · rw [if_neg hemp] at hr
        have h := List.mem_singleton.mp hr
        exact Ev.noConfusion h
  · intro h
    simp [getEvents_eq, h]

/-- C7 witness: with a concrete document holding a name field and a
housenumber field, the name field event carries a non-housenumber key; with
the empty environment, GET of a missing document prints nothing. -/
theorem C7_witness :
    pyStartsWith "name" "h|" = false ∧ getEvents env0 "nope" = [] :=
  ⟨(C7_get envDoc "7").2.1 "name" "X" (by decide),
   (C7_get env0 "nope").2.2 rfl⟩

/-- C8 (confirmed): GEOHASHTOGEOJSON on a decodable geohash emits a polygon
with a single ring of exactly five coordinate pairs, closed (first pair
equals last), whose corners are west/north, east/north, east/south,
west/south of the decoded bounding box, pairwise distinct when the box is
non-degenerate. -/
theorem C8_geohash (env : Env) (g : String) (b : Bbox)
    (h : env.bbox g = some b) :
    do_geohashtogeojson env (some g) = Except.ok [Ev.geojson (polygonRing b)] ∧
    (polygonRing b).length = 5 ∧
    (polygonRing b).head? = (polygonRing b).getLast? ∧
    polygonRing b =
      [(b.w, b.n), (b.e, b.n), (b.e, b.s), (b.w, b.s), (b.w, b.n)] ∧
    (b.w ≠ b.e → b.n ≠ b.s →
      ((polygonRing b).take 4).Pairwise (fun p q => p ≠ q)) := by
  refine ⟨?_, rfl, rfl, rfl, ?_⟩
  · have hd : do_geohashtogeojson env (some g) =
        (match env.bbox g with
         | none => Except.error ExcKind.otherError
         | some bb => Except.ok [Ev.geojson (polygonRing bb)]) := rfl
    rw [hd, h]
  · intro hwe hns
    have key : ∀ p q : ℚ × ℚ, p.1 ≠ q.1 ∨ p.2 ≠ q.2 → p ≠ q := by
      intro p q hpq heq
      rcases hpq with hd | hd
      · exact hd (congrArg Prod.fst heq)
      · exact hd (congrArg Prod.snd heq)
    show ([(b.w, b.n), (b.e, b.n), (b.e, b.s), (b.w, b.s)] :
        List (ℚ × ℚ)).Pairwise (fun p q => p ≠ q)
    refine List.Pairwise.cons ?_
      (List.Pairwise.cons ?_ (List.Pairwise.cons ?_ (List.pairwise_singleton _ _)))
    · intro y hy
      simp only [List.mem_cons, List.mem_singleton, List.not_mem_nil, or_false] at hy
      rcases hy with rfl | rfl | rfl
      · exact key _ _ (Or.inl hwe)
      · exact key _ _ (Or.inl hwe)
      · exact key _ _ (Or.inr hns)
    · intro y hy
      simp only [List.mem_cons, List.mem_singleton, List.not_mem_nil, or_false] at hy
      rcases hy with rfl | rfl
      · exact key _ _ (Or.inr hns)
      · exact key _ _ (Or.inl fun hh => hwe hh.symm)
    · intro y hy
      simp only [List.mem_singleton] at hy
      rcases hy with rfl
      exact key _ _ (Or.inl fun hh => hwe hh.symm)

/-- C8 witness: a concrete bounding box with distinct edges produces the
closed five-point ring with pairwise-distinct corners. -/
theorem C8_witness :
    do_geohashtogeojson envGeo (some "u09") =
      Except.ok [Ev.geojson (polygonRing { n := 2, s := 1, e := 4, w := 3 })] ∧
    ((polygonRing { n := 2, s := 1, e := 4, w := 3 }).take 4).Pairwise
      (fun p q => p ≠ q) := by
  have hc := C8_geohash envGeo "u09" { n := 2, s := 1, e := 4, w := 3 } rfl
  exact ⟨hc.1, hc.2.2.2.2 (by norm_num) (by norm_num)⟩

/-- C9 (confirmed): the center clause of SEARCH and EXPLAIN is detected by
substring containment: a query without `CENTER` is forwarded unchanged
with no center; a query containing `CENTER` once, followed by exactly two
whitespace-separated float literals, is split there and forwarded with
that center; a query containing `CENTER` with anything else after it
raises the parse or unpacking `ValueError` instead of being forwarded. -/
theorem C9_center (q : String) :
    (pyContains q "CENTER" = false → searchParse q = Except.ok (q, none)) ∧
    (∀ pre post a b la lo, pySplitOn q "CENTER" = [pre, post] →
      pyWsSplit post = [a, b] → pyFloat a = some la → pyFloat b = some lo →
      searchParse q = Except.ok (pre, some (la, lo))) ∧
    (pyContains q "CENTER" = true → centerWellFormed q = false →
      searchParse q = Except.error ExcKind.valueError) := by
  refine ⟨?_, ?_, ?_⟩
  · intro h
    simp [searchParse, h]
  · intro pre post a b la lo hsp hws hfa hfb
    have hcon : pyContains q "CENTER" = true := by
      simp [pyContains, hsp]
    simp [searchParse, hcon, hsp, hws, hfa, hfb]
  · intro hcon hwf
    simp only [searchParse, hcon, if_true]
    rcases hsp : pySplitOn q "CENTER" with _ | ⟨p1, _ | ⟨p2, _ | ⟨p3, t⟩⟩⟩
    · rfl
    · rfl
    · show (match pyWsSplit p2 with
            | [a, b] =>
              match pyFloat a, pyFloat b with
              | some lat, some lon => Except.ok (p1, some (lat, lon))
              | _, _ => Except.error ExcKind.valueError
            | _ => Except.error ExcKind.valueError) =
          Except.error ExcKind.valueError
      rcases hws : pyWsSplit p2 with _ | ⟨a, _ | ⟨b, _ | ⟨c, u⟩⟩⟩
      · rfl
      · rfl
      · show (match pyFloat a, pyFloat b with
              | some lat, some lon => Except.ok (p1, some (lat, lon))
              | _, _ => Except.error ExcKind.valueError) =
            Except.error ExcKind.valueError
        rcases hfa : pyFloat a with _ | la
        · rfl
        · rcases hfb : pyFloat b with _ | lo
          · show (match (some la : Option PyF), (none : Option PyF) with
                  | some lat, some lon => Except.ok (p1, some (lat, lon))
                  | _, _ => Except.error ExcKind.valueError) =
                Except.error ExcKind.valueError
            rfl
          · exfalso
            have : centerWellFormed q = true := by
              simp [centerWellFormed, hsp, hws, hfa, hfb]
            rw [this] at hwf
            exact Bool.noConfusion hwf
      · rfl
    · rfl

/-- C9 witness: a query without `CENTER` is forwarded with no center, a
query whose `CENTER` suffix holds exactly two float literals is forwarded
split with that center, and a query with a non-numeric `CENTER` suffix
raises the `ValueError`. -/
theorem C9_witness :
    searchParse "rue des lilas" = Except.ok ("rue des lilas", none) ∧
    searchParse "foo CENTER 48 2" =
      Except.ok ("foo ", some (PyF.fin 48, PyF.fin 2)) ∧
    searchParse "foo CENTER bar" = Except.error ExcKind.valueError :=
  ⟨(C9_center "rue des lilas").1 (by decide),
   (C9_center "foo CENTER 48 2").2.1 "foo " " 48 2" "48" "2"
     (PyF.fin 48) (PyF.fin 2) (by decide) (by decide) (by decide) (by decide),
   (C9_center "foo CENTER bar").2.2 (by decide) (by decide)⟩

end Addok
